import Mathlib

/-!
Verification of the task-state machine of `gym_hil`'s
`PandaStackCubesGymEnv` (`gym_hil/envs/panda_stack_gym_env.py`).

The environment's task logic is shallowly embedded: rationals (`ℚ`) stand in
for the floating-point coordinates (no property below depends on rounding),
the MuJoCo data object is modelled as a name-indexed snapshot of sensor and
joint readings, and the two mutable per-episode attributes
(`self._z_inits`, `self._prev_gripper_closed`) are threaded explicitly
through the step functions.
-/

namespace PandaStack

/-- A 3-D position as read from a MuJoCo sensor or joint. -/
structure Vec3 where
  x : ℚ
  y : ℚ
  z : ℚ
  deriving DecidableEq, Repr, Inhabited

/-- The `reward_type` configuration; the documented values are `"sparse"`
and `"dense"`. -/
inductive RewardType where
  | sparse
  | dense
  deriving DecidableEq, Repr

/-- Immutable per-instance configuration: `self.reward_type`,
`self.num_blocks` and `self._block_z` (the object half-height, read once at
construction from `self._model.geom("block1").size[2]`). -/
structure Config where
  rewardType : RewardType
  numBlocks : ℕ
  blockZ : ℚ

/-- One read-only physics snapshot, addressed by MuJoCo sensor name exactly
as the source is (`self._data.sensor(name).data`), together with the single
gripper joint reading `self._data.joint("left_driver_joint").qpos[0]`. -/
structure Snapshot where
  gripperJoint : ℚ
  sensor : String → Vec3

/-- Per-episode mutable state: `self._z_inits` and
`self._prev_gripper_closed`; `none` models the attribute being absent
(`hasattr` false). -/
structure EpisodeState where
  zInits : List ℚ
  prev : Option Bool

/-- Sensor name used for object index `i` by `_compute_reward` and
`_is_success`: `f"block{i + 1}_pos"`. -/
def rewardSensorName (i : ℕ) : String := "block" ++ toString (i + 1) ++ "_pos"

/-- The ordered list of current object positions read by `_compute_reward`
and `_is_success`. -/
def blockPositions (cfg : Config) (snap : Snapshot) : List Vec3 :=
  (List.range cfg.numBlocks).map fun i => snap.sensor (rewardSensorName i)

/-- Embeds `_is_gripper_closed`: `gripper_position > 0.1` on the single
sampled finger joint. -/
def isGripperClosed (gripperJoint : ℚ) : Bool := decide ((1 : ℚ)/10 < gripperJoint)

/-- Embeds `_was_block_just_released` as a transformer of the stored
`_prev_gripper_closed` attribute: given the stored value (`none` when the
attribute does not exist yet) and the current closed flag, it returns the
`just_released` result together with the new stored value.  The source
initializes a missing attribute to the current value and returns `False`;
otherwise it computes `prev and not current` and then overwrites the
attribute with `current`. -/
def wasBlockJustReleased (prev : Option Bool) (cur : Bool) : Bool × Option Bool :=
  match prev with
  | none => (false, some cur)
  | some p => (p && !cur, some cur)

/-- Embeds the ordered-pair test inside `_is_success`, treating the first
argument as the upper object: `xy_dist < 0.030 and z_diff > 0.03 and
abs(z_diff - self._block_z * 2) < 0.05`.  The planar Euclidean distance
comparison is written in squared form, which over the ordered field is
equivalent for the nonnegative threshold `0.030`. -/
def isPairStacked (blockZ : ℚ) (upper lower : Vec3) : Bool :=
  decide ((upper.x - lower.x)^2 + (upper.y - lower.y)^2 < (3/100)^2)
    && decide ((3 : ℚ)/100 < upper.z - lower.z)
    && decide (|upper.z - lower.z - blockZ * 2| < 5/100)

/-- Embeds the double loop of `_is_success` over all ordered pairs `(i, j)`
with `i != j`, which breaks on the first matching pair; breaking on the
first match is `List.any`. -/
def isSuccess (ps : List Vec3) (blockZ : ℚ) : Bool :=
  (List.range ps.length).any fun i =>
    (List.range ps.length).any fun j =>
      decide (i ≠ j) && isPairStacked blockZ (ps.getD i default) (ps.getD j default)

/-- Embeds `np.clip(v, lo, hi)`. -/
def clip (v lo hi : ℚ) : ℚ := min (max v lo) hi

/-- Embeds the dense-mode lift loop of `_compute_reward`: the running
maximum, started at `0.0`, of
`np.clip((pos[2] - self._z_inits[i]) / (self._block_z * 2), 0.0, 1.0)`
over the block positions paired with their recorded initial heights. -/
def maxLift (zs zInits : List ℚ) (blockZ : ℚ) : ℚ :=
  (List.zipWith (fun z zi => clip ((z - zi) / (blockZ * 2)) 0 1) zs zInits).foldl max 0

/-- Embeds `_compute_reward`.  Both reward modes evaluate
`self._was_block_just_released()` exactly once, before any short-circuit
(`A and B` in Python evaluates `A` first), so the tracker transition is
hoisted in front of the mode match; the returned state carries the updated
`_prev_gripper_closed`. -/
def computeReward (cfg : Config) (snap : Snapshot) (es : EpisodeState) : ℚ × EpisodeState :=
  let positions := blockPositions cfg snap
  let cur := isGripperClosed snap.gripperJoint
  let jr := wasBlockJustReleased es.prev cur
  let released := jr.1
  let es' : EpisodeState := { es with prev := jr.2 }
  match cfg.rewardType with
  | RewardType.dense =>
    let lift := maxLift (positions.map Vec3.z) es.zInits cfg.blockZ
    let stackReward : ℚ :=
      if released && isSuccess positions cfg.blockZ then 2
      else if isSuccess positions cfg.blockZ then 1/2
      else 0
    (3/10 * lift + 7/10 * stackReward, es')
  | RewardType.sparse =>
    ((if released && isSuccess positions cfg.blockZ then 1 else 0), es')

/-- Embeds the `exceeded_bounds` test of `step`:
`np.any(block1_pos[:2] < (_SAMPLING_BOUNDS[0] - 0.05)) or
np.any(block1_pos[:2] > (_SAMPLING_BOUNDS[1] + 0.05))` with
`_SAMPLING_BOUNDS = [[0.3, -0.15], [0.5, 0.15]]`. -/
def exceededBounds (p : Vec3) : Bool :=
  (decide (p.x < 3/10 - 5/100) || decide (p.y < -(15/100) - 5/100))
    || (decide (1/2 + 5/100 < p.x) || decide (15/100 + 5/100 < p.y))

/-- The fields `step` returns, minus the observation (no claim below
concerns it), plus the updated per-episode state. -/
structure StepResult where
  reward : ℚ
  terminated : Bool
  truncated : Bool
  succeed : Bool
  state : EpisodeState

/-- Embeds `step` after the external `apply_action`: computes the reward,
recomputes raw success, overrides it with `rew == 1.0` in sparse mode,
checks bounds on sensor `"block1_pos"` and assembles the returned tuple
`(obs, rew, terminated, False, {"succeed": success})`. -/
def step (cfg : Config) (snap : Snapshot) (es : EpisodeState) : StepResult :=
  let r := computeReward cfg snap es
  let rew := r.1
  let success0 := isSuccess (blockPositions cfg snap) cfg.blockZ
  let success := if cfg.rewardType = RewardType.sparse then decide (rew = 1) else success0
  let exceeded := exceededBounds (snap.sensor ("block1_pos"))
  { reward := rew
    terminated := success || exceeded
    truncated := false
    succeed := success
    state := r.2 }

/-- The joint/sensor base name the placement and `_z_inits` loops of `reset`
use for loop index `i`: `f"block{i}" if i > 0 else "block1"`. -/
def blockNameReset (i : ℕ) : String :=
  if 0 < i then "block" ++ toString i else "block1"

/-- The deterministic placement of the non-randomized branch of `reset`:
`np.asarray([0.5, -0.1 + i * 0.1])`. -/
def fixedBlockXY (i : ℕ) : ℚ × ℚ := (1/2, -(1/10) + (i : ℚ) * (1/10))

/-- Embeds the placement loop of `reset` with
`random_block_position=False`: iteration `i` writes `(*block_xy,
self._block_z)` into `self._data.joint(name).qpos[:3]`, modelled as an
update of the name-indexed joint map. -/
def placeBlocksFixed (n : ℕ) (blockZ : ℚ) (jointPos : String → Vec3) : String → Vec3 :=
  (List.range n).foldl
    (fun acc i => fun name =>
      if name = blockNameReset i then ⟨(fixedBlockXY i).1, (fixedBlockXY i).2, blockZ⟩
      else acc name)
    jointPos

/-- Embeds the placement loop of `reset` with `random_block_position=True`.
`globalDraws` is the stream of `(x, y)` values successive
`np.random.uniform(*_SAMPLING_BOUNDS)` calls on the process-global numpy RNG
produce; each iteration consumes one draw.  Returns the updated joint map
and the remaining global stream. -/
def placeBlocksRandom (n : ℕ) (blockZ : ℚ) (globalDraws : List (ℚ × ℚ))
    (jointPos : String → Vec3) : (String → Vec3) × List (ℚ × ℚ) :=
  (List.range n).foldl
    (fun acc i =>
      let xy := acc.2.headD (0, 0)
      (fun name =>
        if name = blockNameReset i then ⟨xy.1, xy.2, blockZ⟩ else acc.1 name,
       acc.2.tail))
    (jointPos, globalDraws)

/-- Embeds one randomized `reset(seed)` placement.  The source hands `seed`
to `super().reset(seed=seed)`, which (per its own comment) only initializes
the gymnasium-internal RNG `self.np_random`; the block placements are drawn
with `np.random.uniform`, i.e. from the process-global numpy stream, which
that seeding never touches — so `seed` does not enter the placement
computation. -/
def resetPlacementRandom (seed : ℕ) (n : ℕ) (blockZ : ℚ) (globalDraws : List (ℚ × ℚ))
    (jointPos : String → Vec3) : (String → Vec3) × List (ℚ × ℚ) :=
  placeBlocksRandom n blockZ globalDraws jointPos

/-- Embeds the `_z_inits` capture loop of `reset`:
`z = self._data.sensor(f"{name}_pos").data[2]` with `name` given by
`blockNameReset`. -/
def resetZInits (n : ℕ) (snap : Snapshot) : List ℚ :=
  (List.range n).map fun i => (snap.sensor (blockNameReset i ++ "_pos")).z

/-- The sparse reward written as a function of the pre-step value of
`_prev_gripper_closed` and, for dense mode, of the same-step lift and stack
terms: the specification's read-then-update contract for the tracker. -/
def rewardFromPrev (cfg : Config) (snap : Snapshot) (es : EpisodeState) : ℚ :=
  let released := (wasBlockJustReleased es.prev (isGripperClosed snap.gripperJoint)).1
  let stacked := isSuccess (blockPositions cfg snap) cfg.blockZ
  match cfg.rewardType with
  | RewardType.sparse => if released && stacked then 1 else 0
  | RewardType.dense =>
      3/10 * maxLift ((blockPositions cfg snap).map Vec3.z) es.zInits cfg.blockZ
        + 7/10 * (if released && stacked then 2 else if stacked then 1/2 else 0)

/-- All-zero joint map, standing in for the canonical post-`mj_resetData`
pose of every joint the placement loop never writes. -/
def jointPos0 : String → Vec3 := fun _ => ⟨0, 0, 0⟩

/-- Sparse configuration with two tracked objects and half-height `1/40`. -/
def cfgSparse2 : Config := ⟨RewardType.sparse, 2, 1/40⟩

/-- Snapshot in which block2 rests perfectly on block1 (planar offset 0,
height gap `2 * (1/40)`) while the gripper joint reads `1/5 > 0.1`,
i.e. the gripper is still closed. -/
def snapStackedClosed : Snapshot :=
  { gripperJoint := 1/5
    sensor := fun name =>
      if name = "block1_pos" then ⟨1/2, 0, 1/40⟩
      else if name = "block2_pos" then ⟨1/2, 0, 3/40⟩
      else ⟨0, 0, 0⟩ }

/-- Episode state of an episode whose gripper has been closed for a while. -/
def esClosed : EpisodeState := ⟨[1/40, 1/40], some true⟩

/-- Snapshot for the `_z_inits` misalignment: the three block sensors report
pairwise different heights. -/
def snapC3 : Snapshot :=
  { gripperJoint := 0
    sensor := fun name =>
      if name = "block1_pos" then ⟨1/2, -(1/10), 1⟩
      else if name = "block2_pos" then ⟨1/2, 0, 2⟩
      else ⟨0, 0, 0⟩ }

/-- Two successive draws of the process-global numpy stream, both inside
`_SAMPLING_BOUNDS`. -/
def c4Draws : List (ℚ × ℚ) := [(3/10, 0), (2/5, 0)]

/-- The break-on-first-match double loop of `_is_success` returns true
exactly when some ordered pair passes the pair test. -/
lemma isSuccess_eq_true_iff (ps : List Vec3) (bz : ℚ) :
    isSuccess ps bz = true ↔
      ∃ i j, i < ps.length ∧ j < ps.length ∧ i ≠ j ∧
        isPairStacked bz (ps.getD i default) (ps.getD j default) = true := by
  simp only [isSuccess, List.any_eq_true, List.mem_range, Bool.and_eq_true,
    decide_eq_true_eq]
  constructor
  · rintro ⟨i, hi, j, hj, hij, hp⟩
    exact ⟨i, j, hi, hj, hij, hp⟩
  · rintro ⟨i, j, hi, hj, hij, hp⟩
    exact ⟨i, hi, j, hj, hij, hp⟩

/-- The pair test, spelled out as the three threshold inequalities. -/
lemma isPairStacked_eq_true_iff (bz : ℚ) (u l : Vec3) :
    isPairStacked bz u l = true ↔
      ((u.x - l.x)^2 + (u.y - l.y)^2 < (3/100)^2 ∧
       (3 : ℚ)/100 < u.z - l.z ∧ |u.z - l.z - bz * 2| < 5/100) := by
  simp [isPairStacked, and_assoc]

/-- A pair of identical positions never passes the pair test: its vertical
gap is `0`, not above the minimum separation `0.03`. -/
lemma isPairStacked_self (bz : ℚ) (p : Vec3) : isPairStacked bz p p = false := by
  simp [isPairStacked]
  intro h
  norm_num at h

/-- With a single tracked object there is no pair with `i ≠ j`. -/
lemma isSuccess_single (p : Vec3) (bz : ℚ) : isSuccess [p] bz = false := by
  simp [isSuccess]

lemma clip_nonneg (v : ℚ) : 0 ≤ clip v 0 1 := le_min (le_max_right v 0) zero_le_one

lemma clip_le_one (v : ℚ) : clip v 0 1 ≤ 1 := min_le_right _ _

lemma clip_mono {v w : ℚ} (h : v ≤ w) : clip v 0 1 ≤ clip w 0 1 :=
  min_le_min (max_le_max h le_rfl) le_rfl

lemma clip_of_one_le {v : ℚ} (h : 1 ≤ v) : clip v 0 1 = 1 := by
  unfold clip
  rw [max_eq_left (le_trans zero_le_one h), min_eq_right h]

lemma foldl_max_le (l : List ℚ) : ∀ a c : ℚ, a ≤ c → (∀ x ∈ l, x ≤ c) → l.foldl max a ≤ c := by
  induction l with
  | nil => intro a c ha _; simpa using ha
  | cons b t ih =>
    intro a c ha hl
    simp only [List.foldl_cons]
    exact ih (max a b) c (max_le ha (hl b (by simp))) fun x hx => hl x (by simp [hx])

lemma foldl_max_init (l : List ℚ) : ∀ a : ℚ, a ≤ l.foldl max a := by
  induction l with
  | nil => intro a; simp
  | cons b t ih =>
    intro a
    simp only [List.foldl_cons]
    exact le_trans (le_max_left a b) (ih (max a b))

lemma foldl_max_mem (l : List ℚ) : ∀ (a x : ℚ), x ∈ l → x ≤ l.foldl max a := by
  induction l with
  | nil => intro a x hx; simp at hx
  | cons b t ih =>
    intro a x hx
    simp only [List.foldl_cons]
    rcases List.mem_cons.mp hx with h | h
    · subst h
      exact le_trans (le_max_right a x) (foldl_max_init t _)
    · exact ih _ x h

lemma mem_set_self (l : List ℚ) : ∀ (i : ℕ) (c : ℚ), i < l.length → c ∈ l.set i c := by
  induction l with
  | nil => intro i c hi; simp at hi
  | cons b t ih =>
    intro i c hi
    cases i with
    | zero => simp
    | succ n =>
      simp only [List.set]
      exact List.mem_cons_of_mem _ (ih n c (by simpa using hi))

lemma eq_or_mem_of_mem_set (l : List ℚ) :
    ∀ (i : ℕ) (c x : ℚ), x ∈ l.set i c → x = c ∨ x ∈ l := by
  induction l with
  | nil => intro i c x hx; simp at hx
  | cons b t ih =>
    intro i c x hx
    cases i with
    | zero =>
      rcases List.mem_cons.mp hx with h | h
      · exact Or.inl h
      · exact Or.inr (List.mem_cons_of_mem _ h)
    | succ n =>
      rcases List.mem_cons.mp hx with h | h
      · exact Or.inr (by simp [h])
      · rcases ih n c x h with h2 | h2
        · exact Or.inl h2
        · exact Or.inr (List.mem_cons_of_mem _ h2)

lemma zipWith_set_left (f : ℚ → ℚ → ℚ) :
    ∀ (l : List ℚ) (i : ℕ) (z : ℚ), i < l.length →
      List.zipWith f (l.set i z) l = (List.zipWith f l l).set i (f z (l.getD i 0)) := by
  intro l
  induction l with
  | nil => intro i z hi; simp at hi
  | cons b t ih =>
    intro i z hi
    cases i with
    | zero => simp
    | succ n =>
      simp only [List.set, List.zipWith_cons_cons, List.getD_cons_succ]
      rw [ih n z (by simpa using hi)]

lemma zipWith_self_map (f : ℚ → ℚ → ℚ) (l : List ℚ) :
    List.zipWith f l l = l.map fun b => f b b := by
  induction l with
  | nil => simp
  | cons b t ih => simp [ih]

lemma foldl_max_set_zeros (l : List ℚ) (i : ℕ) (c : ℚ) (hi : i < l.length)
    (hl : ∀ x ∈ l, x = 0) (hc : 0 ≤ c) :
    (l.set i c).foldl max 0 = c := by
  apply le_antisymm
  · apply foldl_max_le _ 0 c hc
    intro x hx
    rcases eq_or_mem_of_mem_set l i c x hx with h | h
    · exact le_of_eq h
    · rw [hl x h]; exact hc
  · exact foldl_max_mem _ 0 c (mem_set_self l i c hi)

/-- The dense lift term over a position list that agrees with the baselines
except at index `i` collapses to the single clipped normalized lift of
object `i`: every other object contributes `clip(0, 0, 1) = 0`. -/
lemma maxLift_set (bs : List ℚ) (i : ℕ) (z bz : ℚ) (hi : i < bs.length) :
    maxLift (bs.set i z) bs bz = clip ((z - bs.getD i 0) / (bz * 2)) 0 1 := by
  unfold maxLift
  rw [zipWith_set_left _ bs i z hi, zipWith_self_map]
  have hmap : (bs.map fun b => clip ((b - b) / (bz * 2)) 0 1) = bs.map fun _ => (0 : ℚ) := by
    apply List.map_congr_left
    intro b _
    simp [clip]
  rw [hmap]
  apply foldl_max_set_zeros
  · simpa using hi
  · intro x hx
    rcases List.mem_map.mp hx with ⟨a, _, ha⟩
    exact ha.symm
  · exact clip_nonneg _

/-- C7: the success detector returns true iff some ordered pair `(i, j)`,
`i ≠ j`, has planar distance below `0.030` (stated in squared form),
vertical difference above `0.03`, and vertical difference within `0.05` of
`2h` — an existential, hence independent of the enumeration order of pairs;
a pair of identical positions never passes the pair test (vertical gap `0`);
and with a single object the detector always returns false. -/
theorem isSuccess_pairwise_characterization (ps : List Vec3) (bz : ℚ) (p : Vec3) :
    (isSuccess ps bz = true ↔
      ∃ i j, i < ps.length ∧ j < ps.length ∧ i ≠ j ∧
        (((ps.getD i default).x - (ps.getD j default).x)^2
            + ((ps.getD i default).y - (ps.getD j default).y)^2 < (3/100)^2 ∧
         (3 : ℚ)/100 < (ps.getD i default).z - (ps.getD j default).z ∧
         |(ps.getD i default).z - (ps.getD j default).z - bz * 2| < 5/100)) ∧
    isPairStacked bz p p = false ∧
    isSuccess [p] bz = false := by
  refine ⟨?_, isPairStacked_self bz p, isSuccess_single p bz⟩
  rw [isSuccess_eq_true_iff]
  constructor
  · rintro ⟨i, j, hi, hj, hij, hp⟩
    exact ⟨i, j, hi, hj, hij, (isPairStacked_eq_true_iff bz _ _).mp hp⟩
  · rintro ⟨i, j, hi, hj, hij, hp⟩
    exact ⟨i, j, hi, hj, hij, (isPairStacked_eq_true_iff bz _ _).mpr hp⟩

/-- C8: a perfect stack (planar offset exactly `0`, vertical gap exactly
`2h`) is detected no matter which of the two list orders the enumeration
sees, as long as the ordering with `q` on top passes the pair test (which
here reduces to `2h` exceeding the minimum separation `0.03`). -/
theorem perfect_stack_detected_both_orders (p q : Vec3) (bz : ℚ)
    (hx : q.x = p.x) (hy : q.y = p.y) (hz : q.z - p.z = bz * 2)
    (hmin : (3 : ℚ)/100 < bz * 2) :
    isSuccess [p, q] bz = true ∧ isSuccess [q, p] bz = true := by
  have hpair : isPairStacked bz q p = true := by
    rw [isPairStacked_eq_true_iff]
    refine ⟨?_, ?_, ?_⟩
    · rw [hx, hy]
      simp only [sub_self]
      norm_num
    · rw [hz]; exact hmin
    · rw [hz]
      simp only [sub_self, abs_zero]
      norm_num
  constructor
  · rw [isSuccess_eq_true_iff]
    refine ⟨1, 0, by norm_num, by norm_num, by norm_num, ?_⟩
    simpa using hpair
  · rw [isSuccess_eq_true_iff]
    refine ⟨0, 1, by norm_num, by norm_num, by norm_num, ?_⟩
    simpa using hpair

/-- Closed instance of `perfect_stack_detected_both_orders`: two unit cubes
of half-height `1/40` stacked perfectly at the origin, in both list
orders. -/
theorem perfect_stack_detected_both_orders_witness :
    isSuccess [⟨0, 0, 0⟩, ⟨0, 0, 1/20⟩] (1/40) = true ∧
    isSuccess [⟨0, 0, 1/20⟩, ⟨0, 0, 0⟩] (1/40) = true :=
  perfect_stack_detected_both_orders ⟨0, 0, 0⟩ ⟨0, 0, 1/20⟩ (1/40) rfl rfl
    (by norm_num) (by norm_num)

/-- C9: with every other object at its baseline, the dense lift term is a
monotonically non-decreasing function of the lifted object's height and is
constantly `1` from `baseline + 2h` on. -/
theorem liftTerm_monotone_and_saturates (bs : List ℚ) (i : ℕ) (z₁ z₂ bz : ℚ)
    (hbz : 0 < bz) (hi : i < bs.length) :
    (z₁ ≤ z₂ → maxLift (bs.set i z₁) bs bz ≤ maxLift (bs.set i z₂) bs bz) ∧
    (bs.getD i 0 + bz * 2 ≤ z₁ → maxLift (bs.set i z₁) bs bz = 1) := by
  have hpos : (0 : ℚ) < bz * 2 := mul_pos hbz (by norm_num)
  constructor
  · intro hzz
    rw [maxLift_set bs i z₁ bz hi, maxLift_set bs i z₂ bz hi]
    exact clip_mono ((div_le_div_right hpos).mpr (sub_le_sub_right hzz _))
  · intro hsat
    rw [maxLift_set bs i z₁ bz hi]
    apply clip_of_one_le
    rw [le_div_iff hpos, one_mul]
    linarith

/-- Closed instance of `liftTerm_monotone_and_saturates`: one object with
baseline `0` and half-height `1/2`, compared at heights `1/2` and `2`, and
saturated at height `2 ≥ 0 + 1`. -/
theorem liftTerm_monotone_and_saturates_witness :
    maxLift ([(0 : ℚ)].set 0 (1/2)) [(0 : ℚ)] (1/2)
        ≤ maxLift ([(0 : ℚ)].set 0 2) [(0 : ℚ)] (1/2) ∧
    maxLift ([(0 : ℚ)].set 0 2) [(0 : ℚ)] (1/2) = 1 :=
  ⟨(liftTerm_monotone_and_saturates [0] 0 (1/2) 2 (1/2) (by norm_num) (by simp)).1
      (by norm_num),
   (liftTerm_monotone_and_saturates [0] 0 2 2 (1/2) (by norm_num) (by simp)).2
      (by norm_num)⟩

/-- Feeds a sequence of per-step gripper closed flags through
`wasBlockJustReleased`, starting from a stored `_prev_gripper_closed`
value, and collects the per-step `just_released` results; `reset` stores
`False`, so an episode run starts from `some false`. -/
def runTracker : Option Bool → List Bool → List Bool
  | _, [] => []
  | prev, g :: gs =>
    let r := wasBlockJustReleased prev g
    r.1 :: runTracker r.2 gs

/-- The number of closed-to-open transitions between consecutive entries of
a boolean gripper-state sequence. -/
def countClosedToOpen : List Bool → ℕ
  | a :: b :: rest => (if a && !b then 1 else 0) + countClosedToOpen (b :: rest)
  | _ => 0

lemma runTracker_count (gs : List Bool) :
    ∀ p : Bool, (runTracker (some p) gs).count true = countClosedToOpen (p :: gs) := by
  induction gs with
  | nil => intro p; simp [runTracker, countClosedToOpen]
  | cons g t ih =>
    intro p
    cases p <;> cases g <;>
      simp [runTracker, wasBlockJustReleased, countClosedToOpen, List.count_cons, ih] <;>
      omega

/-- C6: starting from the post-`reset` state (`_prev_gripper_closed =
False`), the number of steps on which `_was_block_just_released` returns
true equals the number of closed-to-open transitions in the observed
gripper sequence; the first evaluation of an episode returns false, both
after `reset` and on the lazy-initialization path where the attribute does
not exist yet. -/
theorem justReleased_counts_transitions (gs : List Bool) (g : Bool) :
    (runTracker (some false) gs).count true = countClosedToOpen gs ∧
    (runTracker (some false) (g :: gs)).head? = some false ∧
    (wasBlockJustReleased none g).1 = false := by
  refine ⟨?_, ?_, rfl⟩
  · rw [runTracker_count gs false]
    cases gs with
    | nil => rfl
    | cons a t => simp [countClosedToOpen]
  · simp [runTracker, wasBlockJustReleased]

lemma decide_rew_eq_one (b : Bool) :
    decide ((if b = true then (1 : ℚ) else 0) = 1) = b := by
  cases b <;> simp

/-- C10: `step` leaves `_z_inits` (and the immutable configuration, which is
not part of the mutable state at all) unchanged, stores the current gripper
flag into `_prev_gripper_closed` exactly once in both reward modes and all
reward branches, and the reward it returns is a function of the pre-step
`_prev_gripper_closed` (read-then-update). -/
theorem step_frame_and_read_then_update (cfg : Config) (snap : Snapshot) (es : EpisodeState) :
    (step cfg snap es).state.zInits = es.zInits ∧
    (step cfg snap es).state.prev = some (isGripperClosed snap.gripperJoint) ∧
    (step cfg snap es).reward = rewardFromPrev cfg snap es := by
  obtain ⟨rt, n, bz⟩ := cfg
  obtain ⟨zi, pr⟩ := es
  cases rt <;> cases pr <;>
    simp [step, computeReward, rewardFromPrev, wasBlockJustReleased]

/-- C5: `step` always returns `truncated = false`; its `terminated` is
exactly `succeed OR exceeded_bounds` where the bounds test looks only at
the reference object's sensor `"block1_pos"`; `exceeded_bounds` holds iff
the planar position lies outside the sampling rectangle expanded
componentwise by the margin `0.05`; and in sparse mode the success flag
holds iff the reward is `1.0` (hence only on release-confirmed success,
implying raw stacking success). -/
theorem step_termination_contract (cfg : Config) (snap : Snapshot) (es : EpisodeState) :
    (step cfg snap es).truncated = false ∧
    (step cfg snap es).terminated
      = ((step cfg snap es).succeed || exceededBounds (snap.sensor ("block1_pos"))) ∧
    (∀ p : Vec3, exceededBounds p = true ↔
      ¬((3/10 - 5/100 ≤ p.x ∧ p.x ≤ 1/2 + 5/100) ∧
        (-(15/100) - 5/100 ≤ p.y ∧ p.y ≤ 15/100 + 5/100))) ∧
    (cfg.rewardType = RewardType.sparse →
      (((step cfg snap es).succeed = true ↔ (step cfg snap es).reward = 1) ∧
       ((step cfg snap es).succeed = true
          → isSuccess (blockPositions cfg snap) cfg.blockZ = true))) := by
  obtain ⟨rt, n, bz⟩ := cfg
  refine ⟨rfl, rfl, ?_, ?_⟩
  · intro p
    simp only [exceededBounds, Bool.or_eq_true, decide_eq_true_eq]
    constructor
    · rintro ((h | h) | (h | h)) ⟨⟨h1, h2⟩, h3, h4⟩ <;> linarith
    · intro h
      rcases lt_or_le p.x (3/10 - 5/100) with hx | hx
      · exact Or.inl (Or.inl hx)
      rcases lt_or_le p.y (-(15/100) - 5/100) with hy | hy
      · exact Or.inl (Or.inr hy)
      rcases lt_or_le (1/2 + 5/100 : ℚ) p.x with hx2 | hx2
      · exact Or.inr (Or.inl hx2)
      rcases lt_or_le (15/100 + 5/100 : ℚ) p.y with hy2 | hy2
      · exact Or.inr (Or.inr hy2)
      exact absurd ⟨⟨hx, hx2⟩, hy, hy2⟩ h
  · intro hs
    simp only at hs
    subst hs
    constructor
    · simp [step, computeReward]
    · intro hsucc
      simp only [step, computeReward, decide_rew_eq_one] at hsucc
      exact (Bool.and_eq_true _ _).mp hsucc |>.2

/-- Amended C1: in dense mode `info.succeed` is the raw stacking-success
boolean, but in sparse mode it is `reward == 1.0`, i.e. it also requires a
release event; in particular, in sparse mode a step on which the objects
are stacked while the gripper is still closed reports `succeed = false`. -/
theorem succeed_flag_characterization (cfg : Config) (snap : Snapshot) (es : EpisodeState) :
    (cfg.rewardType = RewardType.dense →
      (step cfg snap es).succeed = isSuccess (blockPositions cfg snap) cfg.blockZ) ∧
    (cfg.rewardType = RewardType.sparse →
      (step cfg snap es).succeed =
        ((wasBlockJustReleased es.prev (isGripperClosed snap.gripperJoint)).1
          && isSuccess (blockPositions cfg snap) cfg.blockZ)) ∧
    (cfg.rewardType = RewardType.sparse → isGripperClosed snap.gripperJoint = true →
      (step cfg snap es).succeed = false) := by
  obtain ⟨rt, n, bz⟩ := cfg
  refine ⟨?_, ?_, ?_⟩
  · intro h
    simp only at h
    subst h
    simp [step]
  · intro h
    simp only at h
    subst h
    simp [step, computeReward, decide_rew_eq_one]
  · intro h hclosed
    simp only at h
    subst h
    simp only [step, computeReward, decide_rew_eq_one, hclosed]
    cases hp : es.prev <;> simp [wasBlockJustReleased]

/-- In sparse mode the returned success flag is the conjunction of the
release edge (computed from the pre-step tracker value) and the raw
stacking success. -/
lemma step_sparse_succeed (n : ℕ) (bz : ℚ) (snap : Snapshot) (es : EpisodeState) :
    (step ⟨RewardType.sparse, n, bz⟩ snap es).succeed =
      ((wasBlockJustReleased es.prev (isGripperClosed snap.gripperJoint)).1
        && isSuccess (blockPositions ⟨RewardType.sparse, n, bz⟩ snap) bz) := by
  simp [step, computeReward, decide_rew_eq_one]

/-- C1 counterexample: in sparse mode, on a step where the objects are
stacked but the gripper is still closed, the raw success detector returns
true while the returned `info["succeed"]` is false — so `info.succeed` is
not the raw success boolean independent of reward mode. -/
theorem succeed_not_raw_success_counterexample :
    isGripperClosed snapStackedClosed.gripperJoint = true ∧
    isSuccess (blockPositions cfgSparse2 snapStackedClosed) cfgSparse2.blockZ = true ∧
    (step cfgSparse2 snapStackedClosed esClosed).succeed = false := by
  have hr2 : List.range 2 = [0, 1] := by decide
  have hs0 : rewardSensorName 0 = "block1_pos" := by decide
  have hs1 : rewardSensorName 1 = "block2_pos" := by decide
  have hclosed : isGripperClosed snapStackedClosed.gripperJoint = true := by
    rw [isGripperClosed, decide_eq_true_eq]
    show (1 : ℚ)/10 < (1 : ℚ)/5
    norm_num
  have hbp : blockPositions cfgSparse2 snapStackedClosed
      = [⟨1/2, 0, 1/40⟩, ⟨1/2, 0, 3/40⟩] := by
    simp [blockPositions, cfgSparse2, snapStackedClosed, hr2, hs0, hs1]
  refine ⟨hclosed, ?_, ?_⟩
  · rw [hbp]
    rw [show cfgSparse2.blockZ = 1/40 from rfl]
    rw [isSuccess_eq_true_iff]
    refine ⟨1, 0, by norm_num, by norm_num, by norm_num, ?_⟩
    rw [show ([⟨1/2, 0, 1/40⟩, ⟨1/2, 0, 3/40⟩] : List Vec3).getD 1 default
        = ⟨1/2, 0, 3/40⟩ from rfl]
    rw [show ([⟨1/2, 0, 1/40⟩, ⟨1/2, 0, 3/40⟩] : List Vec3).getD 0 default
        = ⟨1/2, 0, 1/40⟩ from rfl]
    rw [isPairStacked_eq_true_iff]
    refine ⟨by norm_num, by norm_num, ?_⟩
    rw [show ((⟨1/2, 0, 3/40⟩ : Vec3).z - (⟨1/2, 0, 1/40⟩ : Vec3).z - (1/40 : ℚ) * 2)
        = 0 by norm_num, abs_zero]
    norm_num
  · rw [show cfgSparse2 = ⟨RewardType.sparse, 2, 1/40⟩ from rfl, step_sparse_succeed]
    rw [show esClosed.prev = some true from rfl, hclosed]
    rfl

/-- C2: the non-randomized placement loop of `reset` with `num_blocks = 2`
addresses the same joint `"block1"` on both iterations (`f"block{i}" if
i > 0 else "block1"` is `"block1"` for both `i = 0` and `i = 1`), so the
first object's joint ends at `(0.5, 0.0, h)` — the second iteration
overwrote the intended `(0.5, -0.1, h)` — and the joint `"block2"` of the
second tracked object is never placed at all. -/
theorem reset_fixed_placement_collides :
    blockNameReset 0 = blockNameReset 1 ∧
    placeBlocksFixed 2 (1/40) jointPos0 ("block1") = ⟨1/2, 0, 1/40⟩ ∧
    placeBlocksFixed 2 (1/40) jointPos0 ("block2") = ⟨0, 0, 0⟩ := by
  have hn0 : blockNameReset 0 = "block1" := by decide
  have hn1 : blockNameReset 1 = "block1" := by decide
  have hr2 : List.range 2 = [0, 1] := by decide
  refine ⟨by decide, ?_, ?_⟩
  · simp [placeBlocksFixed, hr2, hn0, hn1, fixedBlockXY, jointPos0]
  · simp [placeBlocksFixed, hr2, hn0, hn1, jointPos0]

/-- C3: `_z_inits` has the right length, but its entry 1 is read from
sensor `"block1_pos"` (the `reset` naming `f"block{i}"`/`"block1"`), while
index 1 of the dense lift term reads sensor `"block2_pos"`
(`f"block{i + 1}_pos"`), so entry 1 is not the initial height of the object
whose current position the lift term pairs with it. -/
theorem zInits_misaligned_with_lift_indices :
    (resetZInits 2 snapC3).length = 2 ∧
    resetZInits 2 snapC3 = [1, 1] ∧
    (snapC3.sensor (rewardSensorName 1)).z = 2 ∧
    (resetZInits 2 snapC3).getD 1 0 ≠ (snapC3.sensor (rewardSensorName 1)).z := by
  have hn0 : blockNameReset 0 ++ "_pos" = "block1_pos" := by decide
  have hn1 : blockNameReset 1 ++ "_pos" = "block1_pos" := by decide
  have hs1 : rewardSensorName 1 = "block2_pos" := by decide
  have hr2 : List.range 2 = [0, 1] := by decide
  have hz : resetZInits 2 snapC3 = [1, 1] := by
    simp [resetZInits, hr2, hn0, hn1, snapC3]
  have hb2 : (snapC3.sensor (rewardSensorName 1)).z = 2 := by
    simp [hs1, snapC3]
  refine ⟨by rw [hz]; rfl, hz, hb2, ?_⟩
  rw [hz, hb2]
  simp

/-- C4: two `reset(seed)` calls with the same seed on fresh, identically
configured instances in the same process do not give the same placement:
the placement draws come from the process-global numpy stream, which the
seed never re-seeds (only the gymnasium-internal RNG is seeded), so the
second reset continues the stream where the first left off. -/
theorem reset_random_not_seed_deterministic :
    (resetPlacementRandom 7 1 (1/40) c4Draws jointPos0).1 ("block1") = ⟨3/10, 0, 1/40⟩ ∧
    (resetPlacementRandom 7 1 (1/40)
        ((resetPlacementRandom 7 1 (1/40) c4Draws jointPos0).2) jointPos0).1 ("block1")
      = ⟨2/5, 0, 1/40⟩ ∧
    (resetPlacementRandom 7 1 (1/40) c4Draws jointPos0).1 ("block1")
      ≠ (resetPlacementRandom 7 1 (1/40)
          ((resetPlacementRandom 7 1 (1/40) c4Draws jointPos0).2) jointPos0).1 ("block1") := by
  have hn0 : blockNameReset 0 = "block1" := by decide
  have hr1 : List.range 1 = [0] := by decide
  have htl : (resetPlacementRandom 7 1 (1/40) c4Draws jointPos0).2 = [(2/5, 0)] := by
    simp [resetPlacementRandom, placeBlocksRandom, hr1, c4Draws]
  have h1 : (resetPlacementRandom 7 1 (1/40) c4Draws jointPos0).1 ("block1")
      = ⟨3/10, 0, 1/40⟩ := by
    simp [resetPlacementRandom, placeBlocksRandom, hr1, hn0, c4Draws, jointPos0]
  have h2 : (resetPlacementRandom 7 1 (1/40)
      ((resetPlacementRandom 7 1 (1/40) c4Draws jointPos0).2) jointPos0).1 ("block1")
      = ⟨2/5, 0, 1/40⟩ := by
    rw [htl]
    simp [resetPlacementRandom, placeBlocksRandom, hr1, hn0, jointPos0]
  refine ⟨h1, h2, ?_⟩
  rw [h1, h2]
  intro h
  rw [Vec3.mk.injEq] at h
  exact absurd h.1 (by norm_num)

end PandaStack
